import Mathlib

/-!
# Todo router (`src/routes/todos.js`)

A shallow embedding of the four route handlers of the todo REST API
(`POST /`, `GET /`, `PUT /:id`, `DELETE /:id`) as pure functions from a
store state and a request to a response and a new store state, followed by
the properties of the handlers.

The handlers are embedded from `src/routes/todos.js`.  The Mongoose model
`../models/Todo.js` and the middleware `../middleware/auth.js` are not part
of the sources at hand; the store operations the handlers call are modelled
from the specification and are marked as such.
-/

namespace TodoApp

/-! ## JavaScript values -/

/-- A value found in a parsed JSON request body or query string.  `undefined`
is the result of reading a property that is absent.  Numbers are restricted
to integers; an array or an object is kept as its JSON text (the handlers
only test such a value for truthiness and compare it with string literals). -/
inductive JsValue where
  | undefined
  | null
  | bool (b : Bool)
  | num (n : Int)
  | str (s : String)
  | object (json : String)
  deriving DecidableEq, Repr

namespace JsValue

/-- JavaScript `ToBoolean`: `undefined`, `null`, `false`, `0` and `""` are
falsy, everything else (arrays and objects included) is truthy. -/
def truthy : JsValue → Bool
  | undefined => false
  | null => false
  | bool b => b
  | num n => n != 0
  | str s => s != ""
  | object _ => true

/-- The test `v === lit` for a string literal `lit`: no conversion is made, so
only a string with the same characters passes. -/
def strictEqStr (v : JsValue) (lit : String) : Bool :=
  match v with
  | str s => s == lit
  | _ => false

/-- The test `v !== undefined`. -/
def isDefined (v : JsValue) : Bool :=
  match v with
  | undefined => false
  | _ => true

end JsValue

/-- A parsed JSON object (`req.body`, `req.query`): its properties in order,
each name once. -/
abbrev JsObject := List (String × JsValue)

/-- Property read `o.key` (also what the destructuring `const { key } = o`
binds): `undefined` when the property is absent. -/
def JsObject.get (o : JsObject) (key : String) : JsValue :=
  match o.lookup key with
  | some v => v
  | none => JsValue.undefined

/-! ## Identifiers -/

/-- A database identifier (of a user or of a todo), as a number. -/
abbrev ObjectId := Nat

/-- The method `toString()` of an identifier: its hexadecimal digits (least
significant first).  Two identifiers have the same rendering exactly when
they are equal. -/
def ObjectId.toString (o : ObjectId) : List Nat := Nat.digits 16 o

/-! ## The Todo model and the store -/

/-- A stored todo document.  `user` is the owner; `title`, `description` and
`status` hold whatever value was assigned to them. -/
structure Todo where
  _id : ObjectId
  title : JsValue
  description : JsValue
  status : JsValue
  user : ObjectId
  createdAt : Nat
  deriving DecidableEq, Repr

/-- The Todo collection: its documents in insertion order and the next
identifier the store hands out. -/
structure Store where
  docs : List Todo
  nextId : ObjectId
  deriving DecidableEq, Repr

/-- The store before any request. -/
def Store.empty : Store := { docs := [], nextId := 0 }

/-- Identifiers of the stored documents are pairwise different and below the
next identifier to be handed out. -/
def Store.WF (s : Store) : Prop :=
  (s.docs.map Todo._id).Nodup ∧ ∀ d ∈ s.docs, d._id < s.nextId

/-- The query object handed to `Todo.find`: `user` is always set, `status`
only when the handler adds it. -/
structure Filter where
  user : ObjectId
  status : Option JsValue
  deriving DecidableEq, Repr

/-- A document matches a filter when each field of the filter equals the
document's field. -/
def Filter.matches (f : Filter) (t : Todo) : Bool :=
  t.user == f.user &&
    (match f.status with
     | none => true
     | some v => t.status == v)

/-- Modelled from the spec: `Todo.create` of the absent `models/Todo.js`
(section 3 and 4.1: the store assigns a unique `id`, `status` defaults to
`pending`, `createdAt` is the time of creation, `owner` is the `user` given).
Returns the created document and the store with it inserted. -/
def Todo.create (s : Store) (now : Nat) (title description : JsValue) (user : ObjectId) :
    Todo × Store :=
  let doc : Todo :=
    { _id := s.nextId, title := title, description := description,
      status := JsValue.str "pending", user := user, createdAt := now }
  (doc, { docs := s.docs ++ [doc], nextId := s.nextId + 1 })

/-- Modelled from the spec: `Todo.find(filter)` of the absent model (section
6: equality filters on `owner` and `status`): the documents matching the
filter. -/
def Todo.find (s : Store) (f : Filter) : List Todo :=
  s.docs.filter f.matches

/-- Order of two documents under `sort({ createdAt: dir })`: ascending for a
non-negative `dir`, descending for a negative one. -/
def Todo.createdAtOrder (dir : Int) (a b : Todo) : Prop :=
  if dir < 0 then b.createdAt ≤ a.createdAt else a.createdAt ≤ b.createdAt

instance (dir : Int) : DecidableRel (Todo.createdAtOrder dir) := fun a b => by
  unfold Todo.createdAtOrder
  exact inferInstance

instance (dir : Int) : IsTotal Todo (Todo.createdAtOrder dir) :=
  ⟨fun a b => by
    unfold Todo.createdAtOrder
    split
    · exact Nat.le_total b.createdAt a.createdAt
    · exact Nat.le_total a.createdAt b.createdAt⟩

instance (dir : Int) : IsTrans Todo (Todo.createdAtOrder dir) :=
  ⟨fun a b c => by
    unfold Todo.createdAtOrder
    split
    · exact fun h1 h2 => Nat.le_trans h2 h1
    · exact fun h1 h2 => Nat.le_trans h1 h2⟩

/-- Modelled from the spec: `.sort({ createdAt: dir })` on a query result of
the absent model (section 6: descending sort on `createdAt`). -/
def Todo.sort (l : List Todo) (dir : Int) : List Todo :=
  l.insertionSort (Todo.createdAtOrder dir)

/-- Modelled from the spec: `Todo.findById(id)` of the absent model (section
6: not-found is a null result, not an error). -/
def Todo.findById (s : Store) (id : ObjectId) : Option Todo :=
  s.docs.find? (fun d => d._id == id)

/-- Modelled from the spec: `todo.save()` of the absent model (section 4.1:
persists the mutated Todo): the stored document with the identifier of
`todo` is replaced by `todo`. -/
def Todo.save (s : Store) (todo : Todo) : Store :=
  { s with docs := s.docs.map (fun d => if d._id == todo._id then todo else d) }

/-- Modelled from the spec: `Todo.deleteOne({ _id: id })` of the absent model
(section 4.1: removes the Todo permanently): the first document with that
identifier is removed. -/
def Todo.deleteOne (s : Store) (id : ObjectId) : Store :=
  { s with docs := s.docs.eraseP (fun d => d._id == id) }

/-! ## Requests and responses -/

/-- The authenticated user attached to the request by the `protect`
middleware. -/
structure User where
  _id : ObjectId
  deriving DecidableEq, Repr

/-- Route parameters: `req.params.id`, already read as an identifier. -/
structure Params where
  id : ObjectId
  deriving DecidableEq, Repr

/-- What a handler reads of an incoming request. -/
structure Request where
  user : User
  body : JsObject
  query : JsObject
  params : Params
  deriving DecidableEq, Repr

/-- The JSON payload of a response. -/
inductive Payload where
  | message (text : String)
  | todo (t : Todo)
  | todos (l : List Todo)
  deriving DecidableEq, Repr

/-- A response: HTTP status and JSON payload. -/
structure Response where
  status : Nat
  json : Payload
  deriving DecidableEq, Repr

/-- The call `res.status(code).json(payload)`. -/
def Response.withStatus (code : Nat) (payload : Payload) : Response :=
  { status := code, json := payload }

/-- The call `res.json(payload)` without a status: HTTP 200. -/
def Response.ok (payload : Payload) : Response :=
  { status := 200, json := payload }

/-! ## The handlers

Each handler takes the store and the request and returns the response and
the store after the request.  The `catch` branch of a handler (status 500)
is taken when a store call throws; the store operations above are total, so
that branch does not occur here. -/

/-- The handler `router.post('/')`: create a todo.  `now` is the clock reading
the store uses for `createdAt`. -/
def router.post (s : Store) (now : Nat) (req : Request) : Response × Store :=
  let title := req.body.get "title"
  let description := req.body.get "description"
  if !title.truthy then
    (Response.withStatus 400 (Payload.message "Please provide a title"), s)
  else
    let (todo, s1) := Todo.create s now title description req.user._id
    (Response.withStatus 201 (Payload.todo todo), s1)

/-- The handler `router.get('/')`: list the todos of the logged-in user. -/
def router.get (s : Store) (req : Request) : Response × Store :=
  let status := req.query.get "status"
  let filter : Filter := { user := req.user._id, status := none }
  let filter : Filter :=
    if status.truthy && (status.strictEqStr "pending" || status.strictEqStr "completed") then
      { filter with status := some status }
    else filter
  let todos := Todo.sort (Todo.find s filter) (-1)
  (Response.ok (Payload.todos todos), s)

/-- The handler `router.put('/:id')`: update a todo. -/
def router.put (s : Store) (req : Request) : Response × Store :=
  let title := req.body.get "title"
  let description := req.body.get "description"
  let status := req.body.get "status"
  match Todo.findById s req.params.id with
  | none => (Response.withStatus 404 (Payload.message "Todo not found"), s)
  | some todo =>
    if todo.user.toString ≠ req.user._id.toString then
      (Response.withStatus 403 (Payload.message "Not authorized to update this todo"), s)
    else
      let todo := if title.isDefined then { todo with title := title } else todo
      let todo := if description.isDefined then { todo with description := description } else todo
      let todo :=
        if status.isDefined && (status.strictEqStr "pending" || status.strictEqStr "completed") then
          { todo with status := status }
        else todo
      let s1 := Todo.save s todo
      (Response.ok (Payload.todo todo), s1)

/-- The handler `router.delete('/:id')`: delete a todo. -/
def router.delete (s : Store) (req : Request) : Response × Store :=
  match Todo.findById s req.params.id with
  | none => (Response.withStatus 404 (Payload.message "Todo not found"), s)
  | some todo =>
    if todo.user.toString ≠ req.user._id.toString then
      (Response.withStatus 403 (Payload.message "Not authorized to delete this todo"), s)
    else
      let s1 := Todo.deleteOne s req.params.id
      (Response.ok (Payload.message "Todo removed"), s1)

/-! ## Sequences of calls -/

/-- A call that can change the store. -/
inductive Call where
  | create (now : Nat) (req : Request)
  | update (req : Request)
  | delete (req : Request)
  deriving DecidableEq, Repr

/-- The store after one call. -/
def Call.apply (s : Store) : Call → Store
  | Call.create now req => (router.post s now req).2
  | Call.update req => (router.put s req).2
  | Call.delete req => (router.delete s req).2

/-- The store after a sequence of calls, the first call first. -/
def runCalls (s : Store) (calls : List Call) : Store :=
  calls.foldl Call.apply s

/-! ## What the specification says, in its own words -/

/-- The selection the specification gives for List: the owner is the caller
and, when the status filter is exactly `"pending"` or `"completed"`, the
status equals the filter. -/
def specListed (caller : ObjectId) (statusFilter : JsValue) (t : Todo) : Bool :=
  t.user == caller &&
    (if statusFilter = JsValue.str "pending" ∨ statusFilter = JsValue.str "completed" then
      t.status == statusFilter
    else true)

/-- The title of a todo is a non-empty string. -/
def Todo.titleNonEmpty (t : Todo) : Prop :=
  ∃ v : String, t.title = JsValue.str v ∧ v ≠ ""

/-- The title a call supplies is a string or absent. -/
def Call.titleIsString : Call → Prop
  | Call.create _ req => req.body.get "title" = JsValue.undefined ∨ ∃ v, req.body.get "title" = JsValue.str v
  | Call.update req => req.body.get "title" = JsValue.undefined ∨ ∃ v, req.body.get "title" = JsValue.str v
  | Call.delete _ => True

/-- The call is not an Update that supplies the empty string as title. -/
def Call.noEmptyTitleUpdate : Call → Prop
  | Call.update req => req.body.get "title" ≠ JsValue.str ""
  | _ => True

/-- The request body carries a non-empty string as title. -/
def Request.hasTitle (r : Request) : Prop :=
  ∃ v : String, r.body.get "title" = JsValue.str v ∧ v ≠ ""

/-! ## Auxiliary facts -/

theorem ObjectId.toString_eq_iff (a b : ObjectId) : a.toString = b.toString ↔ a = b := by
  unfold ObjectId.toString
  exact Nat.digits_inj_iff

theorem JsValue.strictEqStr_iff (v : JsValue) (lit : String) :
    v.strictEqStr lit = true ↔ v = JsValue.str lit := by
  cases v <;> simp [JsValue.strictEqStr]

theorem Todo.findById_eq_none_iff (s : Store) (id : ObjectId) :
    Todo.findById s id = none ↔ ∀ t ∈ s.docs, t._id ≠ id := by
  simp [Todo.findById]

theorem Todo.findById_some_mem {s : Store} {id : ObjectId} {t : Todo}
    (h : Todo.findById s id = some t) : t ∈ s.docs ∧ t._id = id := by
  unfold Todo.findById at h
  refine ⟨List.mem_of_find?_eq_some h, ?_⟩
  simpa using List.find?_some h

/-! ## Ownership, lookup and validation failures -/

/-- C1: when the todo found under the requested id is owned by someone other
than the caller, Update and Delete both answer 403 and leave the store exactly
as it was, whatever the request body holds. -/
theorem foreign_todo_forbidden (s : Store) (req : Request) (t : Todo)
    (hfind : Todo.findById s req.params.id = some t) (hown : t.user ≠ req.user._id) :
    router.put s req =
        (Response.withStatus 403 (Payload.message "Not authorized to update this todo"), s) ∧
      router.delete s req =
        (Response.withStatus 403 (Payload.message "Not authorized to delete this todo"), s) ∧
      (router.put s req).1.status = 403 ∧ (router.delete s req).1.status = 403 ∧
      (router.put s req).2 = s ∧ (router.delete s req).2 = s := by
  have hstr : t.user.toString ≠ req.user._id.toString := fun h =>
    hown ((ObjectId.toString_eq_iff _ _).1 h)
  have hput : router.put s req =
      (Response.withStatus 403 (Payload.message "Not authorized to update this todo"), s) := by
    simp only [router.put, hfind]
    rw [if_pos hstr]
  have hdel : router.delete s req =
      (Response.withStatus 403 (Payload.message "Not authorized to delete this todo"), s) := by
    simp only [router.delete, hfind]
    rw [if_pos hstr]
  refine ⟨hput, hdel, ?_, ?_, ?_, ?_⟩
  · rw [hput]; rfl
  · rw [hdel]; rfl
  · rw [hput]
  · rw [hdel]

/-- Witness for C1: user 2 addresses the todo of user 1, with a body that
carries a title, a status and an owner. -/
theorem foreign_todo_forbidden_witness :
    router.put
        { docs := [⟨0, JsValue.str "a", JsValue.undefined, JsValue.str "pending", 1, 5⟩],
          nextId := 1 }
        { user := ⟨2⟩,
          body := [("title", JsValue.str "x"), ("status", JsValue.str "completed"),
            ("user", JsValue.num 2)],
          query := [], params := ⟨0⟩ } =
      (Response.withStatus 403 (Payload.message "Not authorized to update this todo"),
        { docs := [⟨0, JsValue.str "a", JsValue.undefined, JsValue.str "pending", 1, 5⟩],
          nextId := 1 }) :=
  (foreign_todo_forbidden
    { docs := [⟨0, JsValue.str "a", JsValue.undefined, JsValue.str "pending", 1, 5⟩],
      nextId := 1 }
    { user := ⟨2⟩,
      body := [("title", JsValue.str "x"), ("status", JsValue.str "completed"),
        ("user", JsValue.num 2)],
      query := [], params := ⟨0⟩ }
    ⟨0, JsValue.str "a", JsValue.undefined, JsValue.str "pending", 1, 5⟩
    (by decide) (by decide)).1

/-- C4: a Create whose title is absent or the empty string answers 400 with
the message "Please provide a title" and leaves the store unchanged. -/
theorem create_without_title_rejected (s : Store) (now : Nat) (req : Request)
    (h : req.body.get "title" = JsValue.undefined ∨ req.body.get "title" = JsValue.str "") :
    router.post s now req =
        (Response.withStatus 400 (Payload.message "Please provide a title"), s) ∧
      (router.post s now req).1.status = 400 ∧ (router.post s now req).2 = s := by
  have hpost : router.post s now req =
      (Response.withStatus 400 (Payload.message "Please provide a title"), s) := by
    rcases h with h | h <;> simp [router.post, h, JsValue.truthy]
  refine ⟨hpost, ?_, ?_⟩
  · rw [hpost]; rfl
  · rw [hpost]

/-- Witness for C4: a body with a description but no title. -/
theorem create_without_title_rejected_witness :
    router.post Store.empty 7
        { user := ⟨1⟩, body := [("description", JsValue.str "d")], query := [], params := ⟨0⟩ } =
      (Response.withStatus 400 (Payload.message "Please provide a title"), Store.empty) :=
  (create_without_title_rejected Store.empty 7
    { user := ⟨1⟩, body := [("description", JsValue.str "d")], query := [], params := ⟨0⟩ }
    (Or.inl (by decide))).1

/-- C5: when no stored todo has the requested id, Update and Delete both
answer 404 and leave the store unchanged, for every caller: the lookup comes
before the ownership test, so the answer is never 403. -/
theorem missing_todo_not_found (s : Store) (req : Request)
    (h : ∀ t ∈ s.docs, t._id ≠ req.params.id) :
    router.put s req = (Response.withStatus 404 (Payload.message "Todo not found"), s) ∧
      router.delete s req = (Response.withStatus 404 (Payload.message "Todo not found"), s) ∧
      (router.put s req).1.status = 404 ∧ (router.delete s req).1.status = 404 ∧
      (router.put s req).2 = s ∧ (router.delete s req).2 = s := by
  have hfind : Todo.findById s req.params.id = none :=
    (Todo.findById_eq_none_iff s req.params.id).2 h
  have hput : router.put s req =
      (Response.withStatus 404 (Payload.message "Todo not found"), s) := by
    simp only [router.put, hfind]
  have hdel : router.delete s req =
      (Response.withStatus 404 (Payload.message "Todo not found"), s) := by
    simp only [router.delete, hfind]
  refine ⟨hput, hdel, ?_, ?_, ?_, ?_⟩
  · rw [hput]; rfl
  · rw [hdel]; rfl
  · rw [hput]
  · rw [hdel]

/-- Witness for C5: id 3 is not in a store that holds only id 0. -/
theorem missing_todo_not_found_witness :
    router.delete
        { docs := [⟨0, JsValue.str "a", JsValue.undefined, JsValue.str "pending", 1, 5⟩],
          nextId := 1 }
        { user := ⟨2⟩, body := [], query := [], params := ⟨3⟩ } =
      (Response.withStatus 404 (Payload.message "Todo not found"),
        { docs := [⟨0, JsValue.str "a", JsValue.undefined, JsValue.str "pending", 1, 5⟩],
          nextId := 1 }) :=
  (missing_todo_not_found
    { docs := [⟨0, JsValue.str "a", JsValue.undefined, JsValue.str "pending", 1, 5⟩],
      nextId := 1 }
    { user := ⟨2⟩, body := [], query := [], params := ⟨3⟩ }
    (by decide)).2.1

/-! ## Create -/

/-- C3: a Create whose title is a non-empty string answers 201 with the
created todo and appends exactly that one todo to the store; its owner is the
caller, its status is pending, its title and description are the supplied
ones and its creation time is the clock reading.  Nothing else in the request
body has any influence: two requests of the same caller that agree on title
and description give the same result. -/
theorem create_adds_owned_pending_todo (s : Store) (now : Nat) (req : Request) (title : String)
    (htitle : req.body.get "title" = JsValue.str title) (hne : title ≠ "") :
    ∃ t : Todo,
      router.post s now req =
          (Response.withStatus 201 (Payload.todo t),
            { docs := s.docs ++ [t], nextId := s.nextId + 1 }) ∧
        (router.post s now req).1.status = 201 ∧
        (router.post s now req).2.docs = s.docs ++ [t] ∧
        t.user = req.user._id ∧
        t.status = JsValue.str "pending" ∧
        t.title = JsValue.str title ∧
        t.description = req.body.get "description" ∧
        t.createdAt = now ∧
        t._id = s.nextId ∧
        ∀ other : Request, other.user = req.user →
          other.body.get "title" = req.body.get "title" →
          other.body.get "description" = req.body.get "description" →
          router.post s now other = router.post s now req := by
  have htruthy : (JsValue.str title).truthy = true := by
    simp [JsValue.truthy, hne]
  refine ⟨{ _id := s.nextId, title := JsValue.str title,
            description := req.body.get "description",
            status := JsValue.str "pending", user := req.user._id, createdAt := now },
    ?_, ?_, ?_, rfl, rfl, rfl, rfl, rfl, rfl, ?_⟩
  · simp [router.post, htitle, htruthy, Todo.create]
  · simp [router.post, htitle, htruthy, Todo.create, Response.withStatus]
  · simp [router.post, htitle, htruthy, Todo.create]
  · intro other hu ht hd
    simp only [router.post, ht, hd, hu]

/-- Witness for C3: the body also carries `user`, `owner` and `status`
fields, which are not used. -/
theorem create_adds_owned_pending_todo_witness :
    ∃ t : Todo,
      router.post Store.empty 7
          { user := ⟨1⟩,
            body := [("title", JsValue.str "Buy milk"), ("user", JsValue.num 9),
              ("owner", JsValue.num 9), ("status", JsValue.str "completed")],
            query := [], params := ⟨0⟩ } =
        (Response.withStatus 201 (Payload.todo t), { docs := [] ++ [t], nextId := 0 + 1 }) ∧
      t.user = 1 ∧ t.status = JsValue.str "pending" :=
  match create_adds_owned_pending_todo Store.empty 7
      { user := ⟨1⟩,
        body := [("title", JsValue.str "Buy milk"), ("user", JsValue.num 9),
          ("owner", JsValue.num 9), ("status", JsValue.str "completed")],
        query := [], params := ⟨0⟩ }
      "Buy milk" (by decide) (by decide) with
  | ⟨t, h1, _, _, h4, h5, _⟩ => ⟨t, h1, h4, h5⟩

/-! ## List -/

theorem statusFilter_recognised_iff (q : JsValue) :
    (q.truthy && (q.strictEqStr "pending" || q.strictEqStr "completed")) = true ↔
      (q = JsValue.str "pending" ∨ q = JsValue.str "completed") := by
  cases q <;> simp [JsValue.truthy, JsValue.strictEqStr]
  rename_i v
  rintro (h | h) <;> simp [h]

/-- The filter `router.get` builds selects what the specification says. -/
theorem router.get_eq (s : Store) (req : Request) :
    router.get s req =
      (Response.ok (Payload.todos
        (Todo.sort (s.docs.filter (specListed req.user._id (req.query.get "status"))) (-1))), s) := by
  unfold router.get Todo.find
  by_cases hq : req.query.get "status" = JsValue.str "pending" ∨
      req.query.get "status" = JsValue.str "completed"
  · have hc := (statusFilter_recognised_iff (req.query.get "status")).2 hq
    simp only [hc, if_true]
    congr 5
    funext t
    simp [Filter.matches, specListed, hq]
  · have hc : ¬ ((req.query.get "status").truthy &&
        ((req.query.get "status").strictEqStr "pending" ||
          (req.query.get "status").strictEqStr "completed")) = true :=
      fun h => hq ((statusFilter_recognised_iff _).1 h)
    simp only [hc, Bool.false_eq_true, if_false]
    congr 5
    funext t
    simp [Filter.matches, specListed, hq]

theorem Todo.sort_desc_pairwise (l : List Todo) :
    (Todo.sort l (-1)).Pairwise (fun a b => b.createdAt ≤ a.createdAt) := by
  have h := List.sorted_insertionSort (Todo.createdAtOrder (-1)) l
  unfold List.Sorted at h
  refine h.imp ?_
  intro a b hab
  simpa [Todo.createdAtOrder] using hab

theorem Todo.sort_perm (l : List Todo) (dir : Int) : (Todo.sort l dir).Perm l :=
  List.perm_insertionSort _ l

/-- C2: List answers 200 and leaves the store unchanged; the returned
sequence holds exactly (as a rearrangement, repetitions counted) the stored
todos the specification selects: those owned by the caller and, when the
status filter is exactly "pending" or "completed", having that status.  No
returned todo is owned by anyone else, and any other filter value gives the
answer of a request without a filter. -/
theorem list_returns_exactly_own_todos (s : Store) (req : Request) :
    ∃ l : List Todo,
      router.get s req = (Response.ok (Payload.todos l), s) ∧
        (router.get s req).1.status = 200 ∧
        (router.get s req).2 = s ∧
        l.Perm (s.docs.filter (specListed req.user._id (req.query.get "status"))) ∧
        (∀ t, t ∈ l ↔
          t ∈ s.docs ∧ t.user = req.user._id ∧
            (req.query.get "status" = JsValue.str "pending" ∨
                req.query.get "status" = JsValue.str "completed" →
              t.status = req.query.get "status")) ∧
        (∀ t ∈ l, t.user = req.user._id) ∧
        (req.query.get "status" ≠ JsValue.str "pending" →
          req.query.get "status" ≠ JsValue.str "completed" →
          router.get s req = router.get s { req with query := [] }) := by
  have hmem : ∀ t, t ∈ Todo.sort (s.docs.filter
        (specListed req.user._id (req.query.get "status"))) (-1) ↔
      t ∈ s.docs ∧ t.user = req.user._id ∧
        (req.query.get "status" = JsValue.str "pending" ∨
            req.query.get "status" = JsValue.str "completed" →
          t.status = req.query.get "status") := by
    intro t
    rw [(Todo.sort_perm _ _).mem_iff]
    by_cases hq : req.query.get "status" = JsValue.str "pending" ∨
        req.query.get "status" = JsValue.str "completed"
    · simp [specListed, hq]
    · simp [specListed, hq]
  refine ⟨_, router.get_eq s req, ?_, ?_, Todo.sort_perm _ _, hmem, ?_, ?_⟩
  · rw [router.get_eq]; rfl
  · rw [router.get_eq]
  · intro t ht
    exact ((hmem t).1 ht).2.1
  · intro h1 h2
    rw [router.get_eq, router.get_eq]
    have h0 : JsObject.get ([] : JsObject) "status" = JsValue.undefined := rfl
    simp only [h0]
    congr 5
    funext t
    simp [specListed, h1, h2]

/-- Witness for C2: with the unrecognised filter "Pending" user 1 gets both
of their todos and not the todo of user 2, as without a filter. -/
theorem list_returns_exactly_own_todos_witness :
    router.get
        { docs := [⟨0, JsValue.str "a", JsValue.undefined, JsValue.str "pending", 1, 5⟩,
            ⟨1, JsValue.str "b", JsValue.undefined, JsValue.str "pending", 2, 6⟩,
            ⟨2, JsValue.str "c", JsValue.undefined, JsValue.str "completed", 1, 7⟩],
          nextId := 3 }
        { user := ⟨1⟩, body := [], query := [("status", JsValue.str "Pending")], params := ⟨0⟩ } =
      router.get
        { docs := [⟨0, JsValue.str "a", JsValue.undefined, JsValue.str "pending", 1, 5⟩,
            ⟨1, JsValue.str "b", JsValue.undefined, JsValue.str "pending", 2, 6⟩,
            ⟨2, JsValue.str "c", JsValue.undefined, JsValue.str "completed", 1, 7⟩],
          nextId := 3 }
        { user := ⟨1⟩, body := [], query := [], params := ⟨0⟩ } :=
  match list_returns_exactly_own_todos
      { docs := [⟨0, JsValue.str "a", JsValue.undefined, JsValue.str "pending", 1, 5⟩,
          ⟨1, JsValue.str "b", JsValue.undefined, JsValue.str "pending", 2, 6⟩,
          ⟨2, JsValue.str "c", JsValue.undefined, JsValue.str "completed", 1, 7⟩],
        nextId := 3 }
      { user := ⟨1⟩, body := [], query := [("status", JsValue.str "Pending")], params := ⟨0⟩ } with
  | ⟨_, _, _, _, _, _, _, h⟩ => h (by decide) (by decide)

theorem router.post_of_title (s : Store) (now : Nat) (req : Request) (v : String)
    (h : req.body.get "title" = JsValue.str v) (hne : v ≠ "") :
    router.post s now req =
      (Response.withStatus 201 (Payload.todo
          ⟨s.nextId, JsValue.str v, req.body.get "description", JsValue.str "pending",
            req.user._id, now⟩),
        { docs := s.docs ++ [⟨s.nextId, JsValue.str v, req.body.get "description",
            JsValue.str "pending", req.user._id, now⟩],
          nextId := s.nextId + 1 }) := by
  simp [router.post, h, JsValue.truthy, hne, Todo.create]

theorem three_creates_listed_newest_first (s : Store) (req r1 r2 r3 : Request) (n1 n2 n3 : Nat)
    (hnone : ∀ t ∈ s.docs, t.user ≠ req.user._id)
    (h1 : r1.user = req.user) (h2 : r2.user = req.user) (h3 : r3.user = req.user)
    (ht1 : r1.hasTitle) (ht2 : r2.hasTitle) (ht3 : r3.hasTitle)
    (h12 : n1 < n2) (h23 : n2 < n3)
    (hq : req.query.get "status" ≠ JsValue.str "completed") :
    ∃ T1 T2 T3 : Todo,
      (router.post s n1 r1).1 = Response.withStatus 201 (Payload.todo T1) ∧
      (router.post (router.post s n1 r1).2 n2 r2).1 = Response.withStatus 201 (Payload.todo T2) ∧
      (router.post (router.post (router.post s n1 r1).2 n2 r2).2 n3 r3).1 =
        Response.withStatus 201 (Payload.todo T3) ∧
      T1.createdAt = n1 ∧ T2.createdAt = n2 ∧ T3.createdAt = n3 ∧
      (router.get (router.post (router.post (router.post s n1 r1).2 n2 r2).2 n3 r3).2 req).1 =
        Response.ok (Payload.todos [T3, T2, T1]) := by
  obtain ⟨v1, hv1, hne1⟩ := ht1
  obtain ⟨v2, hv2, hne2⟩ := ht2
  obtain ⟨v3, hv3, hne3⟩ := ht3
  have hfil : s.docs.filter (specListed req.user._id (req.query.get "status")) = [] := by
    rw [List.filter_eq_nil_iff]
    intro t ht
    simp [specListed, hnone t ht]
  have h21 : ¬ n2 ≤ n1 := by omega
  have h32 : ¬ n3 ≤ n2 := by omega
  have h31 : ¬ n3 ≤ n1 := by omega
  rw [router.post_of_title s n1 r1 v1 hv1 hne1, router.post_of_title _ n2 r2 v2 hv2 hne2,
    router.post_of_title _ n3 r3 v3 hv3 hne3, router.get_eq]
  refine ⟨_, _, _, rfl, rfl, rfl, rfl, rfl, rfl, ?_⟩
  by_cases hp : req.query.get "status" = JsValue.str "pending"
  · rw [hp] at hfil
    simp [List.filter_append, hfil, List.filter_cons, specListed, h1, h2, h3, hp, Todo.sort,
      List.insertionSort, List.orderedInsert, Todo.createdAtOrder, h21, h32, h31]
  · simp [List.filter_append, hfil, List.filter_cons, specListed, h1, h2, h3, hp, hq, Todo.sort,
      List.insertionSort, List.orderedInsert, Todo.createdAtOrder, h21, h32, h31]

/-- C9: the sequence List returns is ordered by `createdAt`, newest first, for
every store, caller and filter; when no stored todo is selected the answer is
status 200 with the empty sequence; and three Creates of a caller without
earlier todos, at increasing times, are listed as T3, T2, T1. -/
theorem list_sorted_newest_first (s : Store) (req : Request) :
    ∃ l : List Todo,
      router.get s req = (Response.ok (Payload.todos l), s) ∧
        (router.get s req).1.status = 200 ∧
        l.Pairwise (fun a b => b.createdAt ≤ a.createdAt) ∧
        ((∀ t ∈ s.docs, specListed req.user._id (req.query.get "status") t = false) → l = []) ∧
        (∀ (r1 r2 r3 : Request) (n1 n2 n3 : Nat),
          (∀ t ∈ s.docs, t.user ≠ req.user._id) →
          r1.user = req.user → r2.user = req.user → r3.user = req.user →
          r1.hasTitle → r2.hasTitle → r3.hasTitle →
          n1 < n2 → n2 < n3 →
          req.query.get "status" ≠ JsValue.str "completed" →
          ∃ T1 T2 T3 : Todo,
            (router.post s n1 r1).1 = Response.withStatus 201 (Payload.todo T1) ∧
            (router.post (router.post s n1 r1).2 n2 r2).1 =
              Response.withStatus 201 (Payload.todo T2) ∧
            (router.post (router.post (router.post s n1 r1).2 n2 r2).2 n3 r3).1 =
              Response.withStatus 201 (Payload.todo T3) ∧
            T1.createdAt = n1 ∧ T2.createdAt = n2 ∧ T3.createdAt = n3 ∧
            (router.get (router.post (router.post (router.post s n1 r1).2 n2 r2).2 n3 r3).2 req).1 =
              Response.ok (Payload.todos [T3, T2, T1])) := by
  refine ⟨_, router.get_eq s req, ?_, Todo.sort_desc_pairwise _, ?_, ?_⟩
  · rw [router.get_eq]; rfl
  · intro h
    have hfil : s.docs.filter (specListed req.user._id (req.query.get "status")) = [] := by
      rw [List.filter_eq_nil_iff]
      intro t ht
      simp [h t ht]
    rw [hfil]
    rfl
  · intro r1 r2 r3 n1 n2 n3 hnone h1 h2 h3 ht1 ht2 ht3 h12 h23 hq
    exact three_creates_listed_newest_first s req r1 r2 r3 n1 n2 n3 hnone h1 h2 h3 ht1 ht2 ht3
      h12 h23 hq

/-- Witness for C9: user 1 creates "a", "b", "c" at times 1, 2, 3 in the
empty store and lists them. -/
theorem list_sorted_newest_first_witness :
    ∃ T1 T2 T3 : Todo,
      (router.post Store.empty 1 ⟨⟨1⟩, [("title", JsValue.str "a")], [], ⟨0⟩⟩).1 =
        Response.withStatus 201 (Payload.todo T1) ∧
      (router.post (router.post Store.empty 1 ⟨⟨1⟩, [("title", JsValue.str "a")], [], ⟨0⟩⟩).2
          2 ⟨⟨1⟩, [("title", JsValue.str "b")], [], ⟨0⟩⟩).1 =
        Response.withStatus 201 (Payload.todo T2) ∧
      (router.post
          (router.post (router.post Store.empty 1 ⟨⟨1⟩, [("title", JsValue.str "a")], [], ⟨0⟩⟩).2
            2 ⟨⟨1⟩, [("title", JsValue.str "b")], [], ⟨0⟩⟩).2
          3 ⟨⟨1⟩, [("title", JsValue.str "c")], [], ⟨0⟩⟩).1 =
        Response.withStatus 201 (Payload.todo T3) ∧
      T1.createdAt = 1 ∧ T2.createdAt = 2 ∧ T3.createdAt = 3 ∧
      (router.get
          (router.post
            (router.post (router.post Store.empty 1 ⟨⟨1⟩, [("title", JsValue.str "a")], [], ⟨0⟩⟩).2
              2 ⟨⟨1⟩, [("title", JsValue.str "b")], [], ⟨0⟩⟩).2
            3 ⟨⟨1⟩, [("title", JsValue.str "c")], [], ⟨0⟩⟩).2
          ⟨⟨1⟩, [], [], ⟨0⟩⟩).1 =
        Response.ok (Payload.todos [T3, T2, T1]) :=
  match list_sorted_newest_first Store.empty ⟨⟨1⟩, [], [], ⟨0⟩⟩ with
  | ⟨_, _, _, _, _, h⟩ =>
    h ⟨⟨1⟩, [("title", JsValue.str "a")], [], ⟨0⟩⟩ ⟨⟨1⟩, [("title", JsValue.str "b")], [], ⟨0⟩⟩
      ⟨⟨1⟩, [("title", JsValue.str "c")], [], ⟨0⟩⟩ 1 2 3
      (by decide) rfl rfl rfl
      ⟨"a", by decide, by decide⟩ ⟨"b", by decide, by decide⟩ ⟨"c", by decide, by decide⟩
      (by decide) (by decide) (by decide)

/-! ## Update -/

theorem Todo.save_docs (s : Store) (t : Todo) :
    (Todo.save s t).docs = s.docs.map (fun d => if d._id = t._id then t else d) := by
  simp [Todo.save]

theorem Todo.findById_save (s : Store) (t : Todo) (id : ObjectId) :
    Todo.findById (Todo.save s t) id =
      (Todo.findById s id).map (fun d => if d._id = t._id then t else d) := by
  unfold Todo.findById Todo.save
  simp only [List.find?_map]
  have hf : (fun d : Todo => if (d._id == t._id) = true then t else d) =
      (fun d => if d._id = t._id then t else d) := by
    funext d
    simp only [beq_iff_eq]
  have hp : ((fun d : Todo => d._id == id) ∘ fun d => if d._id = t._id then t else d) =
      (fun d : Todo => d._id == id) := by
    funext d
    simp only [Function.comp]
    by_cases h : d._id = t._id
    · simp [h]
    · simp [h]
  rw [hf, hp]

/-- The three conditional assignments of `router.put` (title, description,
status), applied to the todo found. -/
theorem router.put_owned (s : Store) (req : Request) (t : Todo)
    (hfind : Todo.findById s req.params.id = some t) (hown : t.user = req.user._id) :
    router.put s req =
      (Response.ok (Payload.todo
          { t with
            title := if (req.body.get "title").isDefined then req.body.get "title" else t.title
            description :=
              if (req.body.get "description").isDefined then req.body.get "description"
              else t.description
            status :=
              if (req.body.get "status").isDefined &&
                  ((req.body.get "status").strictEqStr "pending" ||
                    (req.body.get "status").strictEqStr "completed") then
                req.body.get "status"
              else t.status }),
        Todo.save s
          { t with
            title := if (req.body.get "title").isDefined then req.body.get "title" else t.title
            description :=
              if (req.body.get "description").isDefined then req.body.get "description"
              else t.description
            status :=
              if (req.body.get "status").isDefined &&
                  ((req.body.get "status").strictEqStr "pending" ||
                    (req.body.get "status").strictEqStr "completed") then
                req.body.get "status"
              else t.status }) := by
  have hstr : ¬ t.user.toString ≠ req.user._id.toString := by
    rw [hown]; exact fun h => h rfl
  simp only [router.put, hfind]
  rw [if_neg hstr]
  by_cases h1 : (req.body.get "title").isDefined = true <;>
    by_cases h2 : (req.body.get "description").isDefined = true <;>
    by_cases h3 : ((req.body.get "status").isDefined &&
        ((req.body.get "status").strictEqStr "pending" ||
          (req.body.get "status").strictEqStr "completed")) = true <;>
    simp only [h1, h2, h3, if_true, if_false, Bool.false_eq_true]

theorem JsValue.isDefined_iff (v : JsValue) : v.isDefined = true ↔ v ≠ JsValue.undefined := by
  cases v <;> simp [JsValue.isDefined]

theorem statusUpdate_recognised_iff (q : JsValue) :
    (q.isDefined && (q.strictEqStr "pending" || q.strictEqStr "completed")) = true ↔
      (q = JsValue.str "pending" ∨ q = JsValue.str "completed") := by
  cases q <;> simp [JsValue.isDefined, JsValue.strictEqStr]

/-- C6: an Update of a todo owned by the caller answers 200 with the updated
todo.  Its title is the supplied value when the body has a title (the empty
string included) and the previous title when the body has none, and likewise
for the description; its id, owner and creation time are those of the stored
todo, whatever the body holds.  The updated todo is what the store then holds
under that id, and every todo with another id is unchanged. -/
theorem update_applies_supplied_fields (s : Store) (req : Request) (t : Todo)
    (hfind : Todo.findById s req.params.id = some t) (hown : t.user = req.user._id) :
    ∃ u : Todo,
      (router.put s req).1 = Response.ok (Payload.todo u) ∧
        (router.put s req).1.status = 200 ∧
        (req.body.get "title" ≠ JsValue.undefined → u.title = req.body.get "title") ∧
        (req.body.get "title" = JsValue.str "" → u.title = JsValue.str "") ∧
        (req.body.get "title" = JsValue.undefined → u.title = t.title) ∧
        (req.body.get "description" ≠ JsValue.undefined →
          u.description = req.body.get "description") ∧
        (req.body.get "description" = JsValue.str "" → u.description = JsValue.str "") ∧
        (req.body.get "description" = JsValue.undefined → u.description = t.description) ∧
        u._id = t._id ∧ u.user = t.user ∧ u.createdAt = t.createdAt ∧
        Todo.findById (router.put s req).2 req.params.id = some u ∧
        (router.put s req).2.nextId = s.nextId ∧
        (router.put s req).2.docs =
          s.docs.map (fun d => if d._id = req.params.id then u else d) ∧
        (∀ id : ObjectId, id ≠ req.params.id →
          Todo.findById (router.put s req).2 id = Todo.findById s id) := by
  have hid : t._id = req.params.id := (Todo.findById_some_mem hfind).2
  rw [router.put_owned s req t hfind hown]
  refine ⟨_, rfl, rfl, ?_, ?_, ?_, ?_, ?_, ?_, rfl, rfl, rfl, ?_, rfl, ?_, ?_⟩
  · intro h
    simp [(JsValue.isDefined_iff _).2 h]
  · intro h
    simp [h, JsValue.isDefined]
  · intro h
    simp [h, JsValue.isDefined]
  · intro h
    simp [(JsValue.isDefined_iff _).2 h]
  · intro h
    simp [h, JsValue.isDefined]
  · intro h
    simp [h, JsValue.isDefined]
  · simp only [Todo.findById_save, hfind, Option.map_some', hid, if_true]
  · simp only [Todo.save_docs, hid]
  · intro id hne
    simp only [Todo.findById_save]
    cases hf : Todo.findById s id with
    | none => rfl
    | some d =>
      have hd : d._id = id := (Todo.findById_some_mem hf).2
      have : ¬ d._id = t._id := by rw [hd, hid]; exact hne
      simp [this]

/-- Witness for C6: the owner sends an empty title together with `_id`,
`user` and `createdAt` fields; the title becomes empty, the description and
the rest stay. -/
theorem update_applies_supplied_fields_witness :
    ∃ u : Todo,
      (router.put
          { docs := [⟨0, JsValue.str "a", JsValue.str "d", JsValue.str "pending", 1, 5⟩],
            nextId := 1 }
          { user := ⟨1⟩,
            body := [("title", JsValue.str ""), ("_id", JsValue.num 9), ("user", JsValue.num 2),
              ("createdAt", JsValue.num 0)],
            query := [], params := ⟨0⟩ }).1 = Response.ok (Payload.todo u) ∧
        u.title = JsValue.str "" ∧ u.description = JsValue.str "d" ∧
        u._id = 0 ∧ u.user = 1 ∧ u.createdAt = 5 :=
  match update_applies_supplied_fields
      { docs := [⟨0, JsValue.str "a", JsValue.str "d", JsValue.str "pending", 1, 5⟩],
        nextId := 1 }
      { user := ⟨1⟩,
        body := [("title", JsValue.str ""), ("_id", JsValue.num 9), ("user", JsValue.num 2),
          ("createdAt", JsValue.num 0)],
        query := [], params := ⟨0⟩ }
      ⟨0, JsValue.str "a", JsValue.str "d", JsValue.str "pending", 1, 5⟩
      (by decide) (by decide) with
  | ⟨u, h1, _, _, h4, _, _, _, h8, h9, h10, h11, _⟩ =>
    ⟨u, h1, h4 (by decide), h8 (by decide), h9, h10, h11⟩

/-- C7: an Update of a todo owned by the caller sets the status to the
supplied value exactly when that value is the string "pending" or
"completed"; with any other status in the body (or none) the stored status is
kept.  The answer is 200 in both cases and a title and a description supplied
in the same request are applied. -/
theorem update_status_only_when_recognised (s : Store) (req : Request) (t : Todo)
    (hfind : Todo.findById s req.params.id = some t) (hown : t.user = req.user._id) :
    ∃ u : Todo,
      (router.put s req).1 = Response.ok (Payload.todo u) ∧
        (router.put s req).1.status = 200 ∧
        Todo.findById (router.put s req).2 req.params.id = some u ∧
        (req.body.get "status" = JsValue.str "pending" ∨
            req.body.get "status" = JsValue.str "completed" →
          u.status = req.body.get "status") ∧
        (¬ (req.body.get "status" = JsValue.str "pending" ∨
            req.body.get "status" = JsValue.str "completed") →
          u.status = t.status) ∧
        (req.body.get "title" ≠ JsValue.undefined → u.title = req.body.get "title") ∧
        (req.body.get "description" ≠ JsValue.undefined →
          u.description = req.body.get "description") := by
  have hid : t._id = req.params.id := (Todo.findById_some_mem hfind).2
  rw [router.put_owned s req t hfind hown]
  refine ⟨_, rfl, rfl, ?_, ?_, ?_, ?_, ?_⟩
  · simp only [Todo.findById_save, hfind, Option.map_some', hid, if_true]
  · intro h
    simp [(statusUpdate_recognised_iff _).2 h]
  · intro h
    have hc : ¬ ((req.body.get "status").isDefined &&
        ((req.body.get "status").strictEqStr "pending" ||
          (req.body.get "status").strictEqStr "completed")) = true :=
      fun hc => h ((statusUpdate_recognised_iff _).1 hc)
    simp only [hc, if_false, Bool.false_eq_true]
  · intro h
    simp [(JsValue.isDefined_iff _).2 h]
  · intro h
    simp [(JsValue.isDefined_iff _).2 h]

/-- Witness for C7: status "archived" with a new title: the status stays
"pending", the title is applied, the answer is 200. -/
theorem update_status_only_when_recognised_witness :
    ∃ u : Todo,
      (router.put
          { docs := [⟨0, JsValue.str "a", JsValue.str "d", JsValue.str "pending", 1, 5⟩],
            nextId := 1 }
          { user := ⟨1⟩,
            body := [("status", JsValue.str "archived"), ("title", JsValue.str "b")],
            query := [], params := ⟨0⟩ }).1 = Response.ok (Payload.todo u) ∧
        u.status = JsValue.str "pending" ∧ u.title = JsValue.str "b" :=
  match update_status_only_when_recognised
      { docs := [⟨0, JsValue.str "a", JsValue.str "d", JsValue.str "pending", 1, 5⟩],
        nextId := 1 }
      { user := ⟨1⟩,
        body := [("status", JsValue.str "archived"), ("title", JsValue.str "b")],
        query := [], params := ⟨0⟩ }
      ⟨0, JsValue.str "a", JsValue.str "d", JsValue.str "pending", 1, 5⟩
      (by decide) (by decide) with
  | ⟨u, h1, _, _, _, h5, h6, _⟩ => ⟨u, h1, h5 (by decide), h6 (by decide)⟩

/-! ## Delete -/

theorem eraseP_id_eq_filter (l : List Todo) (id : ObjectId) (hnd : (l.map Todo._id).Nodup) :
    l.eraseP (fun d => d._id == id) = l.filter (fun d => decide (d._id ≠ id)) := by
  induction l with
  | nil => rfl
  | cons a l ih =>
    rw [List.map_cons, List.nodup_cons] at hnd
    by_cases h : a._id = id
    · have hall : ∀ d ∈ l, decide (d._id ≠ id) = true := by
        intro d hd
        have : d._id ≠ a._id := fun e => hnd.1 (e ▸ List.mem_map_of_mem Todo._id hd)
        simpa [← h] using this
      rw [List.eraseP_cons_of_pos (by simpa using h), List.filter_cons_of_neg (by simpa using h),
        List.filter_eq_self.2 hall]
    · rw [List.eraseP_cons_of_neg (by simpa using h), List.filter_cons_of_pos (by simpa using h),
        ih hnd.2]

theorem Todo.deleteOne_docs (s : Store) (id : ObjectId) (hwf : s.WF) :
    (Todo.deleteOne s id).docs = s.docs.filter (fun d => decide (d._id ≠ id)) := by
  simp only [Todo.deleteOne]
  exact eraseP_id_eq_filter s.docs id hwf.1

theorem Todo.findById_deleteOne (s : Store) (id id2 : ObjectId) (hwf : s.WF) :
    Todo.findById (Todo.deleteOne s id) id2 = if id2 = id then none else Todo.findById s id2 := by
  unfold Todo.findById
  rw [Todo.deleteOne_docs s id hwf]
  split
  · rename_i h
    rw [List.find?_eq_none]
    intro d hd
    have := (List.mem_filter.1 hd).2
    simpa [h] using this
  · rename_i h
    rw [List.find?_filter]
    congr 1
    funext d
    by_cases hd : d._id = id2
    · simp [hd, h]
    · simp [hd]

theorem router.delete_owned (s : Store) (req : Request) (x : Todo)
    (hfind : Todo.findById s req.params.id = some x) (hown : x.user = req.user._id) :
    router.delete s req =
      (Response.ok (Payload.message "Todo removed"), Todo.deleteOne s req.params.id) := by
  have hstr : ¬ x.user.toString ≠ req.user._id.toString := by
    rw [hown]; exact fun h => h rfl
  simp only [router.delete, hfind]
  rw [if_neg hstr]

theorem Store.WF_create (s : Store) (hwf : s.WF) (now : Nat) (title description : JsValue)
    (user : ObjectId) : (Todo.create s now title description user).2.WF := by
  obtain ⟨hnd, hlt⟩ := hwf
  constructor
  · simp only [Todo.create, List.map_append, List.map_cons, List.map_nil]
    rw [List.nodup_append]
    refine ⟨hnd, List.nodup_singleton _, ?_⟩
    intro a ha hb
    rw [List.mem_singleton] at hb
    obtain ⟨d, hd, rfl⟩ := List.mem_map.1 ha
    have hlt2 : d._id < s.nextId := hlt d hd
    rw [hb] at hlt2
    exact Nat.lt_irrefl _ hlt2
  · intro d hd
    simp only [Todo.create, List.mem_append, List.mem_singleton] at hd ⊢
    rcases hd with hd | hd
    · exact Nat.lt_succ_of_lt (hlt d hd)
    · rw [hd]
      exact Nat.lt_succ_self _

theorem Store.WF_save (s : Store) (hwf : s.WF) (t : Todo) : (Todo.save s t).WF := by
  obtain ⟨hnd, hlt⟩ := hwf
  have hmap : (Todo.save s t).docs.map Todo._id = s.docs.map Todo._id := by
    simp only [Todo.save, List.map_map]
    apply List.map_congr_left
    intro d _
    simp only [Function.comp, beq_iff_eq]
    split
    · rename_i h; exact h.symm
    · rfl
  constructor
  · rw [hmap]; exact hnd
  · intro d hd
    have hd2 : d._id ∈ (Todo.save s t).docs.map Todo._id := List.mem_map_of_mem Todo._id hd
    rw [hmap] at hd2
    obtain ⟨e, he, hee⟩ := List.mem_map.1 hd2
    have hlt2 : e._id < s.nextId := hlt e he
    rw [hee] at hlt2
    exact hlt2

theorem Store.WF_deleteOne (s : Store) (hwf : s.WF) (id : ObjectId) :
    (Todo.deleteOne s id).WF := by
  obtain ⟨hnd, hlt⟩ := hwf
  constructor
  · simp only [Todo.deleteOne]
    exact (List.Sublist.map Todo._id (List.eraseP_sublist s.docs)).nodup hnd
  · intro d hd
    simp only [Todo.deleteOne] at hd ⊢
    exact hlt d (List.eraseP_subset s.docs hd)

theorem router.put_missing (s : Store) (req : Request)
    (h : Todo.findById s req.params.id = none) :
    router.put s req = (Response.withStatus 404 (Payload.message "Todo not found"), s) := by
  simp only [router.put, h]

theorem router.delete_missing (s : Store) (req : Request)
    (h : Todo.findById s req.params.id = none) :
    router.delete s req = (Response.withStatus 404 (Payload.message "Todo not found"), s) := by
  simp only [router.delete, h]

theorem delete_owned_effects (s : Store) (hwf : s.WF) (req : Request) (x : Todo)
    (hfind : Todo.findById s req.params.id = some x) (hown : x.user = req.user._id) :
    (router.delete s req).1 = Response.ok (Payload.message "Todo removed") ∧
      (router.delete s req).1.status = 200 ∧
      (router.delete s req).2.nextId = s.nextId ∧
      (router.delete s req).2.docs = s.docs.filter (fun d => decide (d._id ≠ req.params.id)) ∧
      (∀ d, d ∈ (router.delete s req).2.docs ↔ d ∈ s.docs ∧ d ≠ x) ∧
      (∀ id : ObjectId, id ≠ req.params.id →
        Todo.findById (router.delete s req).2 id = Todo.findById s id) ∧
      (∀ later : Request, later.params.id = req.params.id →
        router.put (router.delete s req).2 later =
            (Response.withStatus 404 (Payload.message "Todo not found"),
              (router.delete s req).2) ∧
          router.delete (router.delete s req).2 later =
            (Response.withStatus 404 (Payload.message "Todo not found"),
              (router.delete s req).2)) ∧
      (∀ (later : Request) (l : List Todo),
        (router.get (router.delete s req).2 later).1 = Response.ok (Payload.todos l) →
          x ∉ l ∧ ∀ d ∈ l, d._id ≠ req.params.id) := by
  obtain ⟨hx, hid⟩ := Todo.findById_some_mem hfind
  rw [router.delete_owned s req x hfind hown]
  have hdocs := Todo.deleteOne_docs s req.params.id hwf
  have hnone : Todo.findById (Todo.deleteOne s req.params.id) req.params.id = none := by
    rw [Todo.findById_deleteOne s _ _ hwf, if_pos rfl]
  refine ⟨rfl, rfl, rfl, hdocs, ?_, ?_, ?_, ?_⟩
  · intro d
    simp only [hdocs, List.mem_filter, decide_eq_true_eq]
    constructor
    · rintro ⟨hd, hne⟩
      exact ⟨hd, fun e => hne (e ▸ hid)⟩
    · rintro ⟨hd, hne⟩
      refine ⟨hd, fun e => hne ?_⟩
      exact List.inj_on_of_nodup_map hwf.1 hd hx (e.trans hid.symm)
  · intro id hne
    simp only [Todo.findById_deleteOne s _ _ hwf, if_neg hne]
  · intro later hl
    constructor
    · exact router.put_missing _ later (hl ▸ hnone)
    · exact router.delete_missing _ later (hl ▸ hnone)
  · intro later l hget
    rw [router.get_eq] at hget
    have hl : l = Todo.sort ((Todo.deleteOne s req.params.id).docs.filter
        (specListed later.user._id (later.query.get "status"))) (-1) := by
      simp only [Response.ok, Response.mk.injEq, Payload.todos.injEq, true_and] at hget
      exact hget.symm
    have hsub : ∀ d ∈ l, d._id ≠ req.params.id := by
      intro d hd
      rw [hl, (Todo.sort_perm _ _).mem_iff, hdocs] at hd
      have := (List.mem_filter.1 (List.mem_filter.1 hd).1).2
      simpa using this
    exact ⟨fun hxl => hsub x hxl hid, hsub⟩

theorem Todo.findById_create (s : Store) (hwf : s.WF) (now : Nat) (title description : JsValue)
    (user : ObjectId) :
    Todo.findById (Todo.create s now title description user).2 s.nextId =
      some (Todo.create s now title description user).1 := by
  have hnone : s.docs.find? (fun d => d._id == s.nextId) = none := by
    rw [List.find?_eq_none]
    intro d hd
    have hlt : d._id < s.nextId := hwf.2 d hd
    simpa using Nat.ne_of_lt hlt
  simp [Todo.findById, Todo.create, List.find?_append, hnone]

theorem create_update_delete_roundtrip (s : Store) (hwf : s.WF) (now : Nat) (r1 : Request)
    (htitle : r1.body.get "title" = JsValue.str "Buy milk") :
    ∃ X Y : Todo,
      (router.post s now r1).1 = Response.withStatus 201 (Payload.todo X) ∧
      (router.put (runCalls s [Call.create now r1])
          ⟨r1.user, [("status", JsValue.str "completed")], [], ⟨X._id⟩⟩).1 =
        Response.ok (Payload.todo Y) ∧
      Y.status = JsValue.str "completed" ∧ Y._id = X._id ∧
      (router.delete
          (runCalls s [Call.create now r1,
            Call.update ⟨r1.user, [("status", JsValue.str "completed")], [], ⟨X._id⟩⟩])
          ⟨r1.user, [], [], ⟨X._id⟩⟩).1 = Response.ok (Payload.message "Todo removed") ∧
      (∀ (later : Request) (l : List Todo),
        (router.get
            (runCalls s [Call.create now r1,
              Call.update ⟨r1.user, [("status", JsValue.str "completed")], [], ⟨X._id⟩⟩,
              Call.delete ⟨r1.user, [], [], ⟨X._id⟩⟩])
            later).1 = Response.ok (Payload.todos l) →
          ∀ d ∈ l, d._id ≠ X._id) ∧
      (∀ later : Request, later.params.id = X._id →
        (router.put
            (runCalls s [Call.create now r1,
              Call.update ⟨r1.user, [("status", JsValue.str "completed")], [], ⟨X._id⟩⟩,
              Call.delete ⟨r1.user, [], [], ⟨X._id⟩⟩])
            later).1.status = 404 ∧
        (router.delete
            (runCalls s [Call.create now r1,
              Call.update ⟨r1.user, [("status", JsValue.str "completed")], [], ⟨X._id⟩⟩,
              Call.delete ⟨r1.user, [], [], ⟨X._id⟩⟩])
            later).1.status = 404) := by
  have hne : ("Buy milk" : String) ≠ "" := by decide
  have hpost := router.post_of_title s now r1 "Buy milk" htitle hne
  have hwf1 : (router.post s now r1).2.WF := by
    rw [hpost]
    exact Store.WF_create s hwf now (JsValue.str "Buy milk") (r1.body.get "description")
      r1.user._id
  have hfind1 : Todo.findById (router.post s now r1).2 s.nextId =
      some ⟨s.nextId, JsValue.str "Buy milk", r1.body.get "description", JsValue.str "pending",
        r1.user._id, now⟩ := by
    rw [hpost]
    exact Todo.findById_create s hwf now (JsValue.str "Buy milk") (r1.body.get "description")
      r1.user._id
  have hput := router.put_owned (router.post s now r1).2
    ⟨r1.user, [("status", JsValue.str "completed")], [], ⟨s.nextId⟩⟩ _ hfind1 rfl
  have hput2 : router.put (router.post s now r1).2
      ⟨r1.user, [("status", JsValue.str "completed")], [], ⟨s.nextId⟩⟩ =
      (Response.ok (Payload.todo
        ⟨s.nextId, JsValue.str "Buy milk", r1.body.get "description", JsValue.str "completed",
          r1.user._id, now⟩),
        Todo.save (router.post s now r1).2
          ⟨s.nextId, JsValue.str "Buy milk", r1.body.get "description", JsValue.str "completed",
            r1.user._id, now⟩) := by
    rw [hput]
    rfl
  have hwf2 : (router.put (router.post s now r1).2
      ⟨r1.user, [("status", JsValue.str "completed")], [], ⟨s.nextId⟩⟩).2.WF := by
    rw [hput2]
    exact Store.WF_save _ hwf1 _
  have hfind2 : Todo.findById (router.put (router.post s now r1).2
      ⟨r1.user, [("status", JsValue.str "completed")], [], ⟨s.nextId⟩⟩).2 s.nextId =
      some ⟨s.nextId, JsValue.str "Buy milk", r1.body.get "description", JsValue.str "completed",
        r1.user._id, now⟩ := by
    rw [hput2]
    simp only [Todo.findById_save, hfind1, Option.map_some', if_true]
  obtain ⟨hd1, _, _, _, _, _, hd7, hd8⟩ := delete_owned_effects _ hwf2
    ⟨r1.user, [], [], ⟨s.nextId⟩⟩ _ hfind2 rfl
  refine ⟨⟨s.nextId, JsValue.str "Buy milk", r1.body.get "description", JsValue.str "pending",
      r1.user._id, now⟩,
    ⟨s.nextId, JsValue.str "Buy milk", r1.body.get "description", JsValue.str "completed",
      r1.user._id, now⟩, ?_, ?_, rfl, rfl, ?_, ?_, ?_⟩
  · rw [hpost]
  · show (router.put (router.post s now r1).2 _).1 = _
    rw [hput2]
  · exact hd1
  · intro later l hl
    exact (hd8 later l hl).2
  · intro later hl
    have h := hd7 later hl
    constructor
    · exact congrArg (fun p : Response × Store => p.1.status) h.1
    · exact congrArg (fun p : Response × Store => p.1.status) h.2

/-- C8: in a store whose identifiers are pairwise different, a Delete of a
todo X owned by the caller answers 200 with the message "Todo removed" and
removes exactly X: the store then holds the former todos other than X,
unchanged; an Update or Delete under the id of X answers 404; no List
contains X.  And the round trip: Create with title "Buy milk" gives X, Update
of X with status "completed" returns status "completed", Delete of X answers
200, after which no List contains X and Update and Delete of X answer 404. -/
theorem delete_removes_exactly_the_todo (s : Store) (hwf : s.WF) :
    (∀ (req : Request) (x : Todo),
      Todo.findById s req.params.id = some x → x.user = req.user._id →
        (router.delete s req).1 = Response.ok (Payload.message "Todo removed") ∧
        (router.delete s req).1.status = 200 ∧
        (router.delete s req).2.nextId = s.nextId ∧
        (router.delete s req).2.docs =
          s.docs.filter (fun d => decide (d._id ≠ req.params.id)) ∧
        (∀ d, d ∈ (router.delete s req).2.docs ↔ d ∈ s.docs ∧ d ≠ x) ∧
        (∀ id : ObjectId, id ≠ req.params.id →
          Todo.findById (router.delete s req).2 id = Todo.findById s id) ∧
        (∀ later : Request, later.params.id = req.params.id →
          router.put (router.delete s req).2 later =
              (Response.withStatus 404 (Payload.message "Todo not found"),
                (router.delete s req).2) ∧
            router.delete (router.delete s req).2 later =
              (Response.withStatus 404 (Payload.message "Todo not found"),
                (router.delete s req).2)) ∧
        (∀ (later : Request) (l : List Todo),
          (router.get (router.delete s req).2 later).1 = Response.ok (Payload.todos l) →
            x ∉ l ∧ ∀ d ∈ l, d._id ≠ req.params.id)) ∧
    (∀ (now : Nat) (r1 : Request), r1.body.get "title" = JsValue.str "Buy milk" →
      ∃ X Y : Todo,
        (router.post s now r1).1 = Response.withStatus 201 (Payload.todo X) ∧
        (router.put (runCalls s [Call.create now r1])
            ⟨r1.user, [("status", JsValue.str "completed")], [], ⟨X._id⟩⟩).1 =
          Response.ok (Payload.todo Y) ∧
        Y.status = JsValue.str "completed" ∧ Y._id = X._id ∧
        (router.delete
            (runCalls s [Call.create now r1,
              Call.update ⟨r1.user, [("status", JsValue.str "completed")], [], ⟨X._id⟩⟩])
            ⟨r1.user, [], [], ⟨X._id⟩⟩).1 = Response.ok (Payload.message "Todo removed") ∧
        (∀ (later : Request) (l : List Todo),
          (router.get
              (runCalls s [Call.create now r1,
                Call.update ⟨r1.user, [("status", JsValue.str "completed")], [], ⟨X._id⟩⟩,
                Call.delete ⟨r1.user, [], [], ⟨X._id⟩⟩])
              later).1 = Response.ok (Payload.todos l) →
            ∀ d ∈ l, d._id ≠ X._id) ∧
        (∀ later : Request, later.params.id = X._id →
          (router.put
              (runCalls s [Call.create now r1,
                Call.update ⟨r1.user, [("status", JsValue.str "completed")], [], ⟨X._id⟩⟩,
                Call.delete ⟨r1.user, [], [], ⟨X._id⟩⟩])
              later).1.status = 404 ∧
          (router.delete
              (runCalls s [Call.create now r1,
                Call.update ⟨r1.user, [("status", JsValue.str "completed")], [], ⟨X._id⟩⟩,
                Call.delete ⟨r1.user, [], [], ⟨X._id⟩⟩])
              later).1.status = 404)) :=
  ⟨fun req x hfind hown => delete_owned_effects s hwf req x hfind hown,
    fun now r1 htitle => create_update_delete_roundtrip s hwf now r1 htitle⟩

/-- Witness for C8: user 1 deletes their todo 0 from a store that also holds
todo 1 of user 2; todo 1 is what remains. -/
theorem delete_removes_exactly_the_todo_witness :
    (router.delete
        { docs := [⟨0, JsValue.str "a", JsValue.undefined, JsValue.str "pending", 1, 5⟩,
            ⟨1, JsValue.str "b", JsValue.undefined, JsValue.str "pending", 2, 6⟩],
          nextId := 2 }
        ⟨⟨1⟩, [], [], ⟨0⟩⟩).1 = Response.ok (Payload.message "Todo removed") ∧
      (router.delete
        { docs := [⟨0, JsValue.str "a", JsValue.undefined, JsValue.str "pending", 1, 5⟩,
            ⟨1, JsValue.str "b", JsValue.undefined, JsValue.str "pending", 2, 6⟩],
          nextId := 2 }
        ⟨⟨1⟩, [], [], ⟨0⟩⟩).2.docs =
        List.filter (fun d => decide (d._id ≠ 0))
          [⟨0, JsValue.str "a", JsValue.undefined, JsValue.str "pending", 1, 5⟩,
            ⟨1, JsValue.str "b", JsValue.undefined, JsValue.str "pending", 2, 6⟩] :=
  match (delete_removes_exactly_the_todo
      { docs := [⟨0, JsValue.str "a", JsValue.undefined, JsValue.str "pending", 1, 5⟩,
          ⟨1, JsValue.str "b", JsValue.undefined, JsValue.str "pending", 2, 6⟩],
        nextId := 2 }
      ⟨by decide, by decide⟩).1 ⟨⟨1⟩, [], [], ⟨0⟩⟩
      ⟨0, JsValue.str "a", JsValue.undefined, JsValue.str "pending", 1, 5⟩
      (by decide) (by decide) with
  | ⟨h1, _, _, h4, _⟩ => ⟨h1, h4⟩

/-! ## Reachable stores -/

theorem router.put_cases (s : Store) (req : Request) :
    (router.put s req).2 = s ∨
      ∃ t, Todo.findById s req.params.id = some t ∧ t.user = req.user._id ∧
        (router.put s req).2 = Todo.save s
          { t with
            title := if (req.body.get "title").isDefined then req.body.get "title" else t.title
            description :=
              if (req.body.get "description").isDefined then req.body.get "description"
              else t.description
            status :=
              if (req.body.get "status").isDefined &&
                  ((req.body.get "status").strictEqStr "pending" ||
                    (req.body.get "status").strictEqStr "completed") then
                req.body.get "status"
              else t.status } := by
  cases hfind : Todo.findById s req.params.id with
  | none => exact Or.inl (by rw [router.put_missing s req hfind])
  | some t =>
    by_cases hown : t.user = req.user._id
    · exact Or.inr ⟨t, rfl, hown, by rw [router.put_owned s req t hfind hown]⟩
    · left
      have hstr : t.user.toString ≠ req.user._id.toString := fun h =>
        hown ((ObjectId.toString_eq_iff _ _).1 h)
      simp only [router.put, hfind]
      rw [if_pos hstr]

theorem router.delete_cases (s : Store) (req : Request) :
    (router.delete s req).2 = s ∨ (router.delete s req).2 = Todo.deleteOne s req.params.id := by
  cases hfind : Todo.findById s req.params.id with
  | none => exact Or.inl (by rw [router.delete_missing s req hfind])
  | some t =>
    by_cases hown : t.user = req.user._id
    · exact Or.inr (by rw [router.delete_owned s req t hfind hown])
    · left
      have hstr : t.user.toString ≠ req.user._id.toString := fun h =>
        hown ((ObjectId.toString_eq_iff _ _).1 h)
      simp only [router.delete, hfind]
      rw [if_pos hstr]

theorem router.post_cases (s : Store) (now : Nat) (req : Request) :
    (router.post s now req).2 = s ∨
      ((req.body.get "title").truthy = true ∧
        (router.post s now req).2 =
          (Todo.create s now (req.body.get "title") (req.body.get "description")
            req.user._id).2) := by
  by_cases h : (req.body.get "title").truthy = true
  · right
    exact ⟨h, by simp [router.post, h]⟩
  · left
    simp [router.post, h]

theorem Call.apply_WF (s : Store) (hwf : s.WF) (c : Call) : (c.apply s).WF := by
  cases c with
  | create now req =>
    rcases router.post_cases s now req with h | ⟨_, h⟩
    · simp only [Call.apply, h]; exact hwf
    · simp only [Call.apply, h]; exact Store.WF_create s hwf _ _ _ _
  | update req =>
    rcases router.put_cases s req with h | ⟨t, _, _, h⟩
    · simp only [Call.apply, h]; exact hwf
    · simp only [Call.apply, h]; exact Store.WF_save s hwf _
  | delete req =>
    rcases router.delete_cases s req with h | h
    · simp only [Call.apply, h]; exact hwf
    · simp only [Call.apply, h]; exact Store.WF_deleteOne s hwf _

/-- Every store reached from the empty store has pairwise different
identifiers. -/
theorem runCalls_WF (calls : List Call) : (runCalls Store.empty calls).WF := by
  have hgen : ∀ (cs : List Call) (s : Store), s.WF → (runCalls s cs).WF := by
    intro cs
    induction cs with
    | nil => intro s hs; exact hs
    | cons c cs ih =>
      intro s hs
      exact ih (c.apply s) (Call.apply_WF s hs c)
  refine hgen calls Store.empty ⟨?_, ?_⟩
  · simp [Store.empty]
  · intro d hd
    simp [Store.empty] at hd

theorem Call.apply_titles (s : Store) (c : Call)
    (hs : ∀ t ∈ s.docs, t.titleNonEmpty) (hstr : c.titleIsString) (hupd : c.noEmptyTitleUpdate) :
    ∀ t ∈ (c.apply s).docs, t.titleNonEmpty := by
  cases c with
  | create now req =>
    rcases router.post_cases s now req with h | ⟨htr, h⟩
    · simp only [Call.apply, h]; exact hs
    · simp only [Call.apply, h, Todo.create]
      intro t ht
      rcases List.mem_append.1 ht with ht | ht
      · exact hs t ht
      · rw [List.mem_singleton] at ht
        rcases hstr with hu | ⟨v, hv⟩
        · rw [hu] at htr
          simp [JsValue.truthy] at htr
        · refine ⟨v, by rw [ht]; exact hv, ?_⟩
          rw [hv] at htr
          simpa [JsValue.truthy] using htr
  | update req =>
    rcases router.put_cases s req with h | ⟨t0, hfind, _, h⟩
    · simp only [Call.apply, h]; exact hs
    · simp only [Call.apply, h, Todo.save_docs]
      intro t ht
      obtain ⟨d, hd, hdt⟩ := List.mem_map.1 ht
      split at hdt
      · rw [← hdt]
        rcases hstr with hu | ⟨v, hv⟩
        · simp only [hu, JsValue.isDefined]
          exact hs t0 (Todo.findById_some_mem hfind).1
        · refine ⟨v, by simp [hv, JsValue.isDefined], ?_⟩
          intro hv0
          exact hupd (by rw [hv, hv0])
      · rw [← hdt]; exact hs d hd
  | delete req =>
    rcases router.delete_cases s req with h | h
    · simp only [Call.apply, h]; exact hs
    · simp only [Call.apply, h, Todo.deleteOne]
      intro t ht
      exact hs t (List.eraseP_subset s.docs ht)

/-- C10, as stated, fails: user 1 creates a todo with title "a" and then
updates it with the empty string as title; the store then holds a todo whose
title is the empty string, so not every reachable store has only non-empty
titles. -/
theorem title_nonempty_invariant_fails :
    (runCalls Store.empty
        [Call.create 0 ⟨⟨1⟩, [("title", JsValue.str "a")], [], ⟨0⟩⟩,
          Call.update ⟨⟨1⟩, [("title", JsValue.str "")], [], ⟨0⟩⟩]).docs =
        [⟨0, JsValue.str "", JsValue.undefined, JsValue.str "pending", 1, 0⟩] ∧
      ¬ (∀ calls : List Call, ∀ t ∈ (runCalls Store.empty calls).docs, t.titleNonEmpty) := by
  have hpost : router.post Store.empty 0 ⟨⟨1⟩, [("title", JsValue.str "a")], [], ⟨0⟩⟩ =
      (Response.withStatus 201 (Payload.todo
          ⟨0, JsValue.str "a", JsValue.undefined, JsValue.str "pending", 1, 0⟩),
        { docs := [⟨0, JsValue.str "a", JsValue.undefined, JsValue.str "pending", 1, 0⟩],
          nextId := 1 }) :=
    router.post_of_title Store.empty 0 _ "a" (by decide) (by decide)
  have hput : router.put
      { docs := [⟨0, JsValue.str "a", JsValue.undefined, JsValue.str "pending", 1, 0⟩],
        nextId := 1 }
      ⟨⟨1⟩, [("title", JsValue.str "")], [], ⟨0⟩⟩ =
      (Response.ok (Payload.todo
          ⟨0, JsValue.str "", JsValue.undefined, JsValue.str "pending", 1, 0⟩),
        { docs := [⟨0, JsValue.str "", JsValue.undefined, JsValue.str "pending", 1, 0⟩],
          nextId := 1 }) := by
    rw [router.put_owned _ _ ⟨0, JsValue.str "a", JsValue.undefined, JsValue.str "pending", 1, 0⟩
      (by decide) (by decide)]
    decide
  have hrun : (runCalls Store.empty
      [Call.create 0 ⟨⟨1⟩, [("title", JsValue.str "a")], [], ⟨0⟩⟩,
        Call.update ⟨⟨1⟩, [("title", JsValue.str "")], [], ⟨0⟩⟩]).docs =
      [⟨0, JsValue.str "", JsValue.undefined, JsValue.str "pending", 1, 0⟩] := by
    simp only [runCalls, List.foldl, Call.apply, hpost, hput]
  refine ⟨hrun, fun h => ?_⟩
  have h0 := h _ ⟨0, JsValue.str "", JsValue.undefined, JsValue.str "pending", 1, 0⟩
    (by rw [hrun]; exact List.mem_singleton.2 rfl)
  obtain ⟨v, hv, hne⟩ := h0
  simp only [JsValue.str.injEq] at hv
  exact hne hv.symm

/-- C10, amended: starting from the empty store, after any sequence of
Create, Update and Delete calls in which every supplied title is a string and
no Update supplies the empty string as title, every stored todo has a
non-empty string as title. -/
theorem titles_nonempty_without_empty_update (calls : List Call)
    (hstr : ∀ c ∈ calls, c.titleIsString) (hupd : ∀ c ∈ calls, c.noEmptyTitleUpdate) :
    ∀ t ∈ (runCalls Store.empty calls).docs, t.titleNonEmpty := by
  have hgen : ∀ (cs : List Call) (s : Store), (∀ t ∈ s.docs, t.titleNonEmpty) →
      (∀ c ∈ cs, c.titleIsString) → (∀ c ∈ cs, c.noEmptyTitleUpdate) →
      ∀ t ∈ (runCalls s cs).docs, t.titleNonEmpty := by
    intro cs
    induction cs with
    | nil => intro s hs _ _; exact hs
    | cons c cs ih =>
      intro s hs h1 h2
      exact ih (c.apply s)
        (Call.apply_titles s c hs (h1 c (List.mem_cons_self c cs))
          (h2 c (List.mem_cons_self c cs)))
        (fun d hd => h1 d (List.mem_cons_of_mem c hd))
        (fun d hd => h2 d (List.mem_cons_of_mem c hd))
  refine hgen calls Store.empty ?_ hstr hupd
  intro t ht
  simp [Store.empty] at ht

/-- Witness for the amended C10: a Create with an empty title (rejected), a
Create with title "a" and an Update to title "b" leave one todo, titled
"b". -/
theorem titles_nonempty_without_empty_update_witness :
    (runCalls Store.empty
        [Call.create 0 ⟨⟨1⟩, [("title", JsValue.str "")], [], ⟨0⟩⟩,
          Call.create 1 ⟨⟨1⟩, [("title", JsValue.str "a")], [], ⟨0⟩⟩,
          Call.update ⟨⟨1⟩, [("title", JsValue.str "b")], [], ⟨0⟩⟩]).docs =
        [⟨0, JsValue.str "b", JsValue.undefined, JsValue.str "pending", 1, 1⟩] ∧
      Todo.titleNonEmpty ⟨0, JsValue.str "b", JsValue.undefined, JsValue.str "pending", 1, 1⟩ := by
  have hpost0 : router.post Store.empty 0 ⟨⟨1⟩, [("title", JsValue.str "")], [], ⟨0⟩⟩ =
      (Response.withStatus 400 (Payload.message "Please provide a title"), Store.empty) := by
    decide
  have hpost : router.post Store.empty 1 ⟨⟨1⟩, [("title", JsValue.str "a")], [], ⟨0⟩⟩ =
      (Response.withStatus 201 (Payload.todo
          ⟨0, JsValue.str "a", JsValue.undefined, JsValue.str "pending", 1, 1⟩),
        { docs := [⟨0, JsValue.str "a", JsValue.undefined, JsValue.str "pending", 1, 1⟩],
          nextId := 1 }) :=
    router.post_of_title Store.empty 1 _ "a" (by decide) (by decide)
  have hput : router.put
      { docs := [⟨0, JsValue.str "a", JsValue.undefined, JsValue.str "pending", 1, 1⟩],
        nextId := 1 }
      ⟨⟨1⟩, [("title", JsValue.str "b")], [], ⟨0⟩⟩ =
      (Response.ok (Payload.todo
          ⟨0, JsValue.str "b", JsValue.undefined, JsValue.str "pending", 1, 1⟩),
        { docs := [⟨0, JsValue.str "b", JsValue.undefined, JsValue.str "pending", 1, 1⟩],
          nextId := 1 }) := by
    rw [router.put_owned _ _ ⟨0, JsValue.str "a", JsValue.undefined, JsValue.str "pending", 1, 1⟩
      (by decide) (by decide)]
    decide
  have hrun : (runCalls Store.empty
      [Call.create 0 ⟨⟨1⟩, [("title", JsValue.str "")], [], ⟨0⟩⟩,
        Call.create 1 ⟨⟨1⟩, [("title", JsValue.str "a")], [], ⟨0⟩⟩,
        Call.update ⟨⟨1⟩, [("title", JsValue.str "b")], [], ⟨0⟩⟩]).docs =
      [⟨0, JsValue.str "b", JsValue.undefined, JsValue.str "pending", 1, 1⟩] := by
    simp only [runCalls, List.foldl, Call.apply, hpost0, hpost, hput]
  refine ⟨hrun, ?_⟩
  refine titles_nonempty_without_empty_update
    [Call.create 0 ⟨⟨1⟩, [("title", JsValue.str "")], [], ⟨0⟩⟩,
      Call.create 1 ⟨⟨1⟩, [("title", JsValue.str "a")], [], ⟨0⟩⟩,
      Call.update ⟨⟨1⟩, [("title", JsValue.str "b")], [], ⟨0⟩⟩]
    ?_ ?_ _ (by rw [hrun]; exact List.mem_singleton.2 rfl)
  · intro c hc
    simp only [List.mem_cons, List.mem_singleton, List.not_mem_nil, or_false] at hc
    rcases hc with rfl | rfl | rfl
    · exact Or.inr ⟨"", by decide⟩
    · exact Or.inr ⟨"a", by decide⟩
    · exact Or.inr ⟨"b", by decide⟩
  · intro c hc
    simp only [List.mem_cons, List.mem_singleton, List.not_mem_nil, or_false] at hc
    rcases hc with rfl | rfl | rfl
    · trivial
    · trivial
    · show JsObject.get _ "title" ≠ JsValue.str ""
      decide

end TodoApp
